import Mathlib

/-!
Shallow embedding of src/doglessdata/doglessdata.py (class DataDogMetrics).

Modelling conventions, fixed for the whole file:
* Standard output is modelled as a list of the exact strings written; the
  builtin print appends a trailing newline, so each emitted entry ends in
  a newline character.
* The ambient clock is passed explicitly: int(time.time()) becomes a
  parameter ts : Int, and the two time.time() readings of the timing
  helpers become parameters t0 t1 : Rat (time.time() returns a float;
  the rationals stand in for the exact readings).
* Python list objects passed as the tags argument are mutated in place by
  the statement tags += ... in _get_tags whenever the passed list is
  truthy (non-empty).  Each operation therefore also returns the final
  contents of the caller-supplied list object, so that this frame effect
  is visible in the embedding.
* list(set(tags)) returns the distinct elements in an unspecified order;
  it is modelled by List.dedup, one canonical choice of that order.
* The regular expression REGEX_NAME is embedded as a syntax tree and run
  by a backtracking matcher with Python re.match semantics: anchored at
  the start, an arbitrary suffix may remain unmatched, quantifiers are
  greedy with backtracking, and a named group records the last text it
  consumed on the successful path.
-/

namespace Doglessdata

/-- Regular expression syntax: character classes, concatenation,
alternation (left branch preferred, as Python tries alternatives left to
right), greedy Kleene star, and capture groups identified by number. -/
inductive RE where
  | eps : RE
  | cls (p : Char → Bool) : RE
  | cat (a b : RE) : RE
  | alt (a b : RE) : RE
  | star (r : RE) : RE
  | grp (i : Nat) (r : RE) : RE

/-- Captured groups on a match path: group number paired with the exact
characters the group consumed.  Entries are consed in front, so a lookup
finds the most recent capture, as Python does. -/
abbrev Caps := List (Nat × List Char)

/-- Backtracking matcher in continuation-passing style.  The continuation
receives the unconsumed suffix and the captures collected so far; the
fuel bounds the call depth only (every recursive call decreases it) and
is chosen large enough below that it never runs out on the pattern in
use.  A star first tries to consume one more repetition and only falls
back to the continuation when that fails, which is the greedy Python
behaviour; the guard requiring the repetition to consume input mirrors
the fact that every repeated subpattern of REGEX_NAME consumes at least
one character. -/
def reMatch : Nat → RE → List Char → Caps → (List Char → Caps → Option Caps) → Option Caps
  | 0, _, _, _, _ => none
  | Nat.succ fuel, r, s, caps, k =>
    match r with
    | RE.eps => k s caps
    | RE.cls p =>
      match s with
      | [] => none
      | c :: rest => if p c then k rest caps else none
    | RE.cat a b => reMatch fuel a s caps (fun s2 caps2 => reMatch fuel b s2 caps2 k)
    | RE.alt a b =>
      match reMatch fuel a s caps k with
      | some g => some g
      | none => reMatch fuel b s caps k
    | RE.star r =>
      match reMatch fuel r s caps (fun s2 caps2 =>
          if s2.length < s.length then reMatch fuel (RE.star r) s2 caps2 k else none) with
      | some g => some g
      | none => k s caps
    | RE.grp i r =>
      reMatch fuel r s caps (fun s2 caps2 => k s2 ((i, s.take (s.length - s2.length)) :: caps2))

/-- One or more repetitions, greedy: r+ is r followed by r*. -/
def RE.plus (r : RE) : RE := RE.cat r (RE.star r)

/-- Zero or one repetition, greedy: the consuming branch is tried first. -/
def RE.opt (r : RE) : RE := RE.alt r RE.eps

/-- Concatenation of a list of regexes. -/
def RE.cats (rs : List RE) : RE := rs.foldr RE.cat RE.eps

/-- A literal string, character by character. -/
def RE.lit (s : String) : RE := RE.cats (s.data.map (fun c => RE.cls (fun d => d == c)))

/-- Class for the Python escape backslash-w, restricted to ASCII word
characters (letters, digits, underscore), which is the alphabet AWS
Lambda function names are drawn from. -/
def wordChar (c : Char) : Bool := c.isAlphanum || c == '_'

/-- Class for the bracket expression matching an underscore or hyphen. -/
def sepChar (c : Char) : Bool := c == '_' || c == '-'

/-- Class for the range a-z of lowercase ASCII letters. -/
def lowerChar (c : Char) : Bool := 'a' ≤ c && c ≤ 'z'

/-- Group numbers for the three named groups of REGEX_NAME. -/
def grpRegion : Nat := 0
def grpStack : Nat := 1
def grpName : Nat := 2

/-- REGEX_NAME from the source, as a regex syntax tree:
(?P[region-group] [word-or-hyphen]+ [digit]+) [sep]
(?P[stack-group] [a-z]+ [sep] [a-z]+ (?: [sep] staging )? ) [sep]
(?P[name-group] .+) where the dot matches anything but a newline. -/
def REGEX_NAME : RE :=
  RE.cats
    [ RE.grp grpRegion (RE.cats
        [ RE.plus (RE.cls (fun c => wordChar c || c == '-'))
        , RE.plus (RE.cls Char.isDigit) ])
    , RE.cls sepChar
    , RE.grp grpStack (RE.cats
        [ RE.plus (RE.cls lowerChar)
        , RE.cls sepChar
        , RE.plus (RE.cls lowerChar)
        , RE.opt (RE.cat (RE.cls sepChar) (RE.lit "staging")) ])
    , RE.cls sepChar
    , RE.grp grpName (RE.plus (RE.cls (fun c => !(c == '\n')))) ]

/-- Fuel bound for running REGEX_NAME: the matcher's call depth on this
pattern is linear in the input length with a small constant, and this
bound dominates it comfortably. -/
def reFuel (s : String) : Nat := 100 * s.length + 100

/-- Python re.match of REGEX_NAME against a string: anchored at the start,
a trailing unmatched suffix is allowed.  On success, returns the values
of the groups named stack and name, in that order. -/
def regexNameMatch (s : String) : Option (String × String) :=
  match reMatch (reFuel s) REGEX_NAME s.data [] (fun _ caps => some caps) with
  | some caps =>
    some (String.mk ((caps.lookup grpStack).getD []),
          String.mk ((caps.lookup grpName).getD []))
  | none => none

/-- Lines 41 to 50 of __init__: from the AWS_LAMBDA_FUNCTION_NAME value,
compute the pair (lambda_name, stack).  A non-empty value is matched
against REGEX_NAME; on success the name and stack groups replace it, on
failure the value is kept and the stack falls back to the sentinel; an
empty value keeps the empty name and the sentinel stack. -/
def initNameStack (lambda_name : String) : String × String :=
  if lambda_name ≠ "" then
    match regexNameMatch lambda_name with
    | some (stack, name) => (name, stack)
    | none => (lambda_name, "no_stack")
  else (lambda_name, "no_stack")

/-- The emitter: its only state is the default tag list _default_tags
computed once by __init__. -/
structure DataDogMetrics where
  _default_tags : List String
deriving Repr, DecidableEq

/-- Named status constants of the class. -/
def OK : Int := 0
def WARNING : Int := 1
def CRITICAL : Int := 2
def UNKNOWN : Int := 3

/-- The constructor __init__.  The two process environment reads are
passed explicitly: env_lambda_name is os.environ.get of
AWS_LAMBDA_FUNCTION_NAME with default empty, env_region likewise for
AWS_REGION.  Percent formatting of strings is concatenation. -/
def init (global_tags : List String) (env_lambda_name env_region : String) : DataDogMetrics :=
  let p := initNameStack env_lambda_name
  let lambda_name := p.1
  let stack := p.2
  let default_tags := ([] : List String) ++ global_tags
  let default_tags := default_tags ++ ["h:" ++ lambda_name]
  let default_tags := default_tags ++ ["host:" ++ lambda_name]
  let default_tags := default_tags ++ ["stack:" ++ stack]
  let default_tags := default_tags ++ ["lambda"]
  let aws_region := env_region
  let default_tags :=
    if aws_region ≠ "" then default_tags ++ ["aws_region:" ++ aws_region] else default_tags
  ⟨default_tags⟩

/-- Python str.replace applied to the two-character pattern of a doubled
dot, replacing each non-overlapping occurrence, left to right in a
single pass, by a single dot. -/
def collapseDotsAux : List Char → List Char
  | '.' :: '.' :: rest => '.' :: collapseDotsAux rest
  | c :: rest => c :: collapseDotsAux rest
  | [] => []

/-- String wrapper for the doubled-dot collapse. -/
def pyCollapseDoubleDot (s : String) : String := String.mk (collapseDotsAux s.data)

/-- Splitting a character list on a separator character, accumulating
the current segment in reverse: the model of the Python str.split with a
one-character separator, for which an empty string yields the singleton
list holding the empty segment and adjacent separators yield empty
segments. -/
def pySplitAux (sep : Char) : List Char → List Char → List (List Char)
  | [], acc => [acc.reverse]
  | c :: rest, acc =>
    if c = sep then acc.reverse :: pySplitAux sep rest []
    else pySplitAux sep rest (c :: acc)

/-- The Python split of a string on the dot separator. -/
def pySplitDot (s : String) : List String := (pySplitAux '.' s.data []).map String.mk

/-- The name_tags comprehension of _get_tags: one tag per dotted prefix
of the metric name, the i-th being the first i+1 dot-separated segments
rejoined with dots. -/
def nameTags (metric_name : String) : List String :=
  (List.range (pySplitDot metric_name).length).map
    (fun i => String.intercalate "." ((pySplitDot metric_name).take (i + 1)))

/-- Model of list(set(tags)): the distinct elements, in one canonical
order standing for the unspecified set iteration order of Python. -/
def pySetList (tags : List String) : List String := tags.dedup

/-- Result of _get_tags.  result is the new deduplicated list the
function returns; callerAfter is the final contents of the list object
the caller passed in the tags argument (none when the caller passed no
list), recording the in-place extension performed by the += statements
on a truthy argument. -/
structure GetTagsResult where
  result : List String
  callerAfter : Option (List String)
  selfAfter : DataDogMetrics
deriving Repr, DecidableEq

/-- The helper _get_tags.  The expression tags or [] yields the caller's
own list object exactly when that list is non-empty (truthy); a falsy
argument (absent or empty list) is replaced by a fresh empty list, so
the caller object is then left untouched.  The += statements extend the
selected list in place with the default tags and, when the metric name
is truthy (non-empty), the dotted-prefix name tags; the returned value
list(set(tags)) is a fresh deduplicated list. -/
def get_tags (self : DataDogMetrics) (tags : Option (List String))
    (metric_name : Option String) : GetTagsResult :=
  let aliased : Bool := match tags with
    | some l => decide (l ≠ [])
    | none => false
  let base : List String := match tags with
    | some l => if l ≠ [] then l else []
    | none => []
  let extended := base ++ self._default_tags
  let extended := match metric_name with
    | some n => if n ≠ "" then extended ++ nameTags n else extended
    | none => extended
  { result := pySetList extended
    callerAfter := if aliased then some extended else tags
    -- no statement of the source assigns to self._default_tags outside
    -- __init__, and the += statements mutate the list bound to the local
    -- name tags, never the list held by the field, so self is unchanged
    selfAfter := self }

/-- The helper _print_metric: build the fully qualified metric name by
prefixing lambda. and collapsing doubled dots, join the tags with
commas, interpolate the pipe-separated template, and print it.  The
returned list is the lines written to standard output, each with the
trailing newline added by print. -/
def print_metric (ts : Int) (metric_type metric_name : String) (value : Int)
    (tags_list : List String) : List String :=
  let metric_name := "lambda." ++ metric_name
  let metric_name := pyCollapseDoubleDot metric_name
  let tags := String.intercalate "," tags_list
  let statsd_string :=
    "MONITORING|" ++ toString ts ++ "|" ++ toString value ++ "|" ++ metric_type
      ++ "|" ++ metric_name ++ "|#" ++ tags
  [statsd_string ++ "\n"]

/-- Observable outcome of one metric operation: the lines written to
standard output and the final contents of the caller-supplied tags list
object, when one was passed. -/
structure OpResult where
  out : List String
  callerAfter : Option (List String)
  selfAfter : DataDogMetrics
deriving Repr, DecidableEq

/-- The increment operation: resolve tags against the metric name, then
emit one line of type count carrying the count value. -/
def increment (self : DataDogMetrics) (ts : Int) (metric_name : String) (count : Int)
    (tags : Option (List String)) : OpResult :=
  let r := get_tags self tags (some metric_name)
  { out := print_metric ts "count" metric_name count r.result
    callerAfter := r.callerAfter
    selfAfter := r.selfAfter }

/-- The gauge operation: resolve tags against the metric name, then emit
one line of type gauge carrying the value. -/
def gauge (self : DataDogMetrics) (ts : Int) (metric_name : String) (value : Int)
    (tags : Option (List String)) : OpResult :=
  let r := get_tags self tags (some metric_name)
  { out := print_metric ts "gauge" metric_name value r.result
    callerAfter := r.callerAfter
    selfAfter := r.selfAfter }

/-- The histogram operation: resolve tags against the metric name, then
emit one line of type histogram carrying the value. -/
def histogram (self : DataDogMetrics) (ts : Int) (metric_name : String) (value : Int)
    (tags : Option (List String)) : OpResult :=
  let r := get_tags self tags (some metric_name)
  { out := print_metric ts "histogram" metric_name value r.result
    callerAfter := r.callerAfter
    selfAfter := r.selfAfter }

/-- The argument timing hands to histogram: tags or [] replaces a falsy
argument by a fresh empty list and keeps a truthy one aliased. -/
def timingTagsArg (tags : Option (List String)) : List String :=
  match tags with
  | some l => if l ≠ [] then l else []
  | none => []

/-- The timing operation: replace a falsy tags argument by a fresh empty
list, then delegate to histogram with the delta as value.  The caller's
list object is only reachable, hence only mutated, when it was truthy. -/
def timing (self : DataDogMetrics) (ts : Int) (metric_name : String) (delta : Int)
    (tags : Option (List String)) : OpResult :=
  let fresh : Bool := match tags with
    | some l => decide (l = [])
    | none => true
  let h := histogram self ts metric_name delta (some (timingTagsArg tags))
  { out := h.out
    callerAfter := if fresh then tags else h.callerAfter
    selfAfter := h.selfAfter }

/-- Python 3 round applied to the exact value of (end - start) * 1000:
nearest integer, ties to the even neighbour. -/
def pyRound (q : ℚ) : ℤ :=
  let f := ⌊q⌋
  let frac := q - f
  if frac < 1 / 2 then f
  else if 1 / 2 < frac then f + 1
  else if Even f then f else f + 1

/-- The body handed to a timing scope or a wrapped callable: it either
produces a value or raises an exception that the helper sees propagate. -/
abbrev Body (ε α : Type) := Except ε α

/-- Executing the generator-based context manager timing_context around
a body, with t0 and t1 the two time.time() readings.  The generator has
no try/finally: when the body completes normally, control returns to the
generator after the yield and the timing call runs; when the body raises,
the exception is thrown into the generator at the yield point and
propagates out of it, so the statements after the yield never execute
and nothing is printed.  Returns the outcome of the with statement and
the lines written to standard output. -/
def timing_context {ε α : Type} (self : DataDogMetrics) (ts : Int) (metric_name : String)
    (tags : Option (List String)) (t0 t1 : ℚ) (body : Body ε α) :
    Body ε α × OpResult :=
  match body with
  | Except.ok a =>
    let delta := pyRound ((t1 - t0) * 1000)
    (Except.ok a, timing self ts metric_name delta tags)
  | Except.error e =>
    (Except.error e, { out := [], callerAfter := tags, selfAfter := self })

/-- The identity components timeit collects from the callable: each of
function.__class__.__name__, function.__qualname__ and function.__name__
when the attribute access does not raise AttributeError. -/
def timeitNames (className qualname name : Option String) : List String :=
  className.toList ++ qualname.toList ++ name.toList

/-- Invoking the callable produced by the timeit decorator, with t0 and
t1 the two time.time() readings.  The metric name is the dot-join of the
identity components collected from the wrapped callable.  The wrapper
has no exception handler: when the body raises, the exception propagates
before the timing call is reached, so nothing is printed; when the body
returns, the timing metric is emitted with a None tags argument and the
result is returned unchanged. -/
def timeit {ε α : Type} (self : DataDogMetrics) (ts : Int)
    (className qualname name : Option String) (t0 t1 : ℚ) (body : Body ε α) :
    Body ε α × OpResult :=
  let metricName := String.intercalate "." (timeitNames className qualname name)
  match body with
  | Except.ok result =>
    let delta := pyRound ((t1 - t0) * 1000)
    (Except.ok result, timing self ts metricName delta none)
  | Except.error e =>
    (Except.error e, { out := [], callerAfter := none, selfAfter := self })

/-- The status argument of service_check as a dynamically typed Python
value: either an int with its value, or a value of some non-int type. -/
inductive PyStatus where
  | int (n : Int) : PyStatus
  | notInt : PyStatus
deriving Repr, DecidableEq

/-- Observable outcome of a service_check call: whether the assert
raised (halting the call), the lines written to standard output, the
final contents of the caller-supplied tags list object, and the emitter
after the call. -/
structure CheckResult where
  raised : Bool
  out : List String
  callerAfter : Option (List String)
  selfAfter : DataDogMetrics
deriving Repr, DecidableEq

/-- The service_check operation.  The assert checks only that the status
is an instance of int: a non-int status raises AssertionError before
anything is printed, while any int value passes.  With an int status the
line is built from the prefixed, dot-collapsed service name, the tags
resolved from the raw service name, the literal type token check, and
the message suffix appended only when the message is truthy
(non-empty). -/
def service_check (self : DataDogMetrics) (ts : Int) (service_name : String)
    (status : PyStatus) (message : String) (tags : Option (List String)) :
    CheckResult :=
  match status with
  | PyStatus.notInt =>
    -- assert isinstance(status, int) raises AssertionError before any
    -- other statement runs: nothing printed, no list touched
    { raised := true, out := [], callerAfter := tags, selfAfter := self }
  | PyStatus.int n =>
    let metric_name := "lambda." ++ service_name
    let metric_name := pyCollapseDoubleDot metric_name
    let r := get_tags self tags (some service_name)
    let tagsStr := String.intercalate "," r.result
    let statsd_string :=
      "MONITORING|" ++ toString ts ++ "|" ++ toString n ++ "|" ++ "check" ++ "|"
        ++ metric_name ++ "|#" ++ tagsStr
    let statsd_string :=
      if message ≠ "" then statsd_string ++ "|m:" ++ message else statsd_string
    { raised := false
      out := [statsd_string ++ "\n"]
      callerAfter := r.callerAfter
      selfAfter := r.selfAfter }

/-! Theorems about the claims, in claim order.  The emitter used by the
concrete witnesses is built with no global tags and both environment
values empty. -/

/-- Emitter for concrete witness inputs: no global tags, both
environment variables absent. -/
def m0 : DataDogMetrics := init [] "" ""

/-- Claim C1, counterexample.  The claim asserts that the scoped timing
helper emits exactly one timing metric even when the scoped body raises.
At this concrete input the body raises, the exception propagates out of
the scope, and the helper writes nothing to standard output: the
generator behind timing_context has no try/finally, so the statements
after the yield never run on the error path. -/
theorem claim_C1_counterexample :
    (timing_context m0 0 "data_source" none 0 1
        (Except.error "boom" : Body String Unit)).2.out = []
  ∧ (timing_context m0 0 "data_source" none 0 1
        (Except.error "boom" : Body String Unit)).1 = Except.error "boom" :=
  ⟨rfl, rfl⟩

/-- Claim C1, amended.  When the scoped body completes normally, the
scope exit emits exactly one timing metric recording the elapsed
wall-clock time in milliseconds rounded to the nearest integer; when the
body raises, the exception propagates out of the scope and no timing
metric is emitted. -/
theorem claim_C1_amended {ε α : Type} (m : DataDogMetrics) (ts : Int) (name : String)
    (tags : Option (List String)) (t0 t1 : ℚ) (body : Body ε α) :
    (∀ a, body = Except.ok a →
        (timing_context m ts name tags t0 t1 body).1 = Except.ok a
      ∧ (timing_context m ts name tags t0 t1 body).2.out =
          (timing m ts name (pyRound ((t1 - t0) * 1000)) tags).out
      ∧ ((timing_context m ts name tags t0 t1 body).2.out).length = 1)
  ∧ (∀ e, body = Except.error e →
        (timing_context m ts name tags t0 t1 body).1 = Except.error e
      ∧ (timing_context m ts name tags t0 t1 body).2.out = []) := by
  constructor
  · intro a ha; subst ha; exact ⟨rfl, rfl, rfl⟩
  · intro e he; subst he; exact ⟨rfl, rfl⟩

/-- Claim C1, witness for the amended theorem at a concrete input: a
body that returns normally, with readings one second apart. -/
theorem claim_C1_witness :
    (timing_context m0 0 "data_source" none 0 1 (Except.ok () : Body String Unit)).2.out =
      (timing m0 0 "data_source" (pyRound (((1 : ℚ) - 0) * 1000)) none).out
  ∧ ((timing_context m0 0 "data_source" none 0 1 (Except.ok () : Body String Unit)).2.out).length
      = 1 :=
  ⟨((claim_C1_amended m0 0 "data_source" none 0 1
      (Except.ok () : Body String Unit)).1 () rfl).2.1,
   ((claim_C1_amended m0 0 "data_source" none 0 1
      (Except.ok () : Body String Unit)).1 () rfl).2.2⟩

/-- Claim C2, counterexample.  The claim asserts that a service check
with the out-of-range integer status 5 fails the precondition check and
halts without emitting output.  In the source the assert checks only
isinstance of int, so the status 5 passes it and one line is emitted. -/
theorem claim_C2_counterexample :
    (service_check m0 0 "svc" (PyStatus.int 5) "" none).raised = false
  ∧ (service_check m0 0 "svc" (PyStatus.int 5) "" none).out =
      ["MONITORING|0|5|check|lambda.svc|#h:,host:,stack:no_stack,lambda,svc\n"] := by
  exact ⟨rfl, by decide⟩

/-- Claim C2, amended.  A service check with a non-integer status fails
the isinstance assertion and halts immediately without emitting any
output line and without touching the caller's tags list; a status that
is an integer, including integers outside the four defined constants
such as 5, passes the precondition and one line is emitted. -/
theorem claim_C2_amended (m : DataDogMetrics) (ts : Int) (svc msg : String)
    (tags : Option (List String)) (n : Int) :
    ((service_check m ts svc PyStatus.notInt msg tags).raised = true
      ∧ (service_check m ts svc PyStatus.notInt msg tags).out = []
      ∧ (service_check m ts svc PyStatus.notInt msg tags).callerAfter = tags)
  ∧ ((service_check m ts svc (PyStatus.int n) msg tags).raised = false
      ∧ ((service_check m ts svc (PyStatus.int n) msg tags).out).length = 1) :=
  ⟨⟨rfl, rfl, rfl⟩, rfl, rfl⟩

/-- Claim C3: each of increment, gauge, histogram and timing writes to
standard output exactly one line, with a trailing newline, consisting of
the literal token MONITORING followed by pipe-separated fields: the unix
timestamp in whole seconds, the value, the metric-type tag (count for
increment, gauge for gauge, histogram for histogram and for timing), the
metric name prefixed with lambda. and with doubled dots collapsed, and a
hash-prefixed comma-joined tag list. -/
theorem claim_C3 (m : DataDogMetrics) (ts : Int) (name : String) (v : Int)
    (tags : Option (List String)) :
    (increment m ts name v tags).out =
      ["MONITORING|" ++ toString ts ++ "|" ++ toString v ++ "|" ++ "count" ++ "|"
         ++ pyCollapseDoubleDot ("lambda." ++ name) ++ "|#"
         ++ String.intercalate "," (get_tags m tags (some name)).result ++ "\n"]
  ∧ (gauge m ts name v tags).out =
      ["MONITORING|" ++ toString ts ++ "|" ++ toString v ++ "|" ++ "gauge" ++ "|"
         ++ pyCollapseDoubleDot ("lambda." ++ name) ++ "|#"
         ++ String.intercalate "," (get_tags m tags (some name)).result ++ "\n"]
  ∧ (histogram m ts name v tags).out =
      ["MONITORING|" ++ toString ts ++ "|" ++ toString v ++ "|" ++ "histogram" ++ "|"
         ++ pyCollapseDoubleDot ("lambda." ++ name) ++ "|#"
         ++ String.intercalate "," (get_tags m tags (some name)).result ++ "\n"]
  ∧ (timing m ts name v tags).out =
      ["MONITORING|" ++ toString ts ++ "|" ++ toString v ++ "|" ++ "histogram" ++ "|"
         ++ pyCollapseDoubleDot ("lambda." ++ name) ++ "|#"
         ++ String.intercalate ","
              (get_tags m (some (timingTagsArg tags)) (some name)).result ++ "\n"] :=
  ⟨rfl, rfl, rfl, rfl⟩

/-- Claim C4: a non-empty function identifier that REGEX_NAME matches
has its name and stack groups extracted by the constructor's parsing
step; a non-empty identifier it does not match keeps the original
identifier as the name with the sentinel stack; an empty identifier
keeps the empty name with the sentinel stack. -/
theorem claim_C4 (s : String) :
    (regexNameMatch s = none → initNameStack s = (s, "no_stack"))
  ∧ (∀ st nm, regexNameMatch s = some (st, nm) → initNameStack s = (nm, st))
  ∧ (s = "" → initNameStack s = ("", "no_stack")) := by
  refine ⟨?_, ?_, ?_⟩
  · intro h
    by_cases hs : s = ""
    · subst hs; rfl
    · simp [initNameStack, hs, h]
  · intro st nm h
    by_cases hs : s = ""
    · subst hs
      have hnone : regexNameMatch "" = none := rfl
      rw [hnone] at h
      cases h
    · simp [initNameStack, hs, h]
  · intro hs; subst hs; rfl

/-- Claim C4, witness at concrete inputs: one identifier in each of the
three cases of the theorem. -/
theorem claim_C4_witness :
    initNameStack "r1_ab_cd_nm" = ("nm", "ab_cd")
  ∧ initNameStack "nomatch" = ("nomatch", "no_stack")
  ∧ initNameStack "" = ("", "no_stack") :=
  ⟨(claim_C4 "r1_ab_cd_nm").2.1 "ab_cd" "nm" (by decide),
   (claim_C4 "nomatch").1 (by decide),
   (claim_C4 "").2.2 rfl⟩

/-- Claim C5: resolving tags for caller tags T and a non-empty metric
name yields a duplicate-free list whose members are exactly the union of
T, the default tags, and the dotted prefixes of the name; the prefix
list has exactly one entry per dot-separated segment of the name, the
k-th being the first k segments rejoined with dots; and with no metric
name only T and the default tags are combined. -/
theorem claim_C5 (m : DataDogMetrics) (T : List String) (name : String) (h : name ≠ "") :
    ((get_tags m (some T) (some name)).result).Nodup
  ∧ (∀ x, x ∈ (get_tags m (some T) (some name)).result ↔
        (x ∈ T ∨ x ∈ m._default_tags ∨ x ∈ nameTags name))
  ∧ (nameTags name).length = (pySplitDot name).length
  ∧ (∀ k, k < (pySplitDot name).length →
        (nameTags name)[k]? =
          some (String.intercalate "." ((pySplitDot name).take (k + 1))))
  ∧ ((get_tags m (some T) none).result).Nodup
  ∧ (∀ x, x ∈ (get_tags m (some T) none).result ↔ (x ∈ T ∨ x ∈ m._default_tags)) := by
  refine ⟨List.nodup_dedup _, ?_, ?_, ?_, List.nodup_dedup _, ?_⟩
  · intro x
    by_cases hT : T = [] <;>
      simp [get_tags, pySetList, hT, h, or_assoc]
  · simp [nameTags]
  · intro k hk
    simp [nameTags, List.getElem?_map, List.getElem?_range, hk]
  · intro x
    by_cases hT : T = [] <;>
      simp [get_tags, pySetList, hT]

/-- Claim C5, witness at a concrete input: caller tag list of one
element and the two-segment name a.b, showing the resolved list is
duplicate-free and contains the full-name prefix tag. -/
theorem claim_C5_witness :
    ((get_tags m0 (some ["t"]) (some "a.b")).result).Nodup
  ∧ "a.b" ∈ (get_tags m0 (some ["t"]) (some "a.b")).result :=
  ⟨(claim_C5 m0 ["t"] "a.b" (by decide)).1,
   ((claim_C5 m0 ["t"] "a.b" (by decide)).2.1 "a.b").mpr
     (Or.inr (Or.inr (by decide)))⟩

/-- Claim C6: after construction the default tag list is the
caller-supplied global tags followed by the h:, host:, stack: tags built
from the parsed name and stack, the literal tag lambda, and the
aws_region: tag exactly when the region environment value is non-empty;
the constructor is a total function of its inputs, so construction never
raises. -/
theorem claim_C6 (global_tags : List String) (env_lambda_name env_region : String) :
    (init global_tags env_lambda_name env_region)._default_tags =
      global_tags
        ++ ["h:" ++ (initNameStack env_lambda_name).1,
            "host:" ++ (initNameStack env_lambda_name).1,
            "stack:" ++ (initNameStack env_lambda_name).2, "lambda"]
        ++ (if env_region ≠ "" then ["aws_region:" ++ env_region] else []) := by
  by_cases hr : env_region = "" <;>
    simp [init, hr]

/-- Claim C7: no operation of the emitter changes the stored default tag
list: tag resolution, the four metric operations, the scoped timing
helper, the timing wrapper and the service check all leave it equal to
its value at construction time. -/
theorem claim_C7 {ε α : Type} (m : DataDogMetrics) (ts : Int) (name msg : String)
    (v : Int) (tags : Option (List String)) (t0 t1 : ℚ) (body : Body ε α)
    (cn qn nm : Option String) (status : PyStatus) :
    ((get_tags m tags (some name)).selfAfter)._default_tags = m._default_tags
  ∧ ((get_tags m tags none).selfAfter)._default_tags = m._default_tags
  ∧ ((increment m ts name v tags).selfAfter)._default_tags = m._default_tags
  ∧ ((gauge m ts name v tags).selfAfter)._default_tags = m._default_tags
  ∧ ((histogram m ts name v tags).selfAfter)._default_tags = m._default_tags
  ∧ ((timing m ts name v tags).selfAfter)._default_tags = m._default_tags
  ∧ (((timing_context m ts name tags t0 t1 body).2).selfAfter)._default_tags
      = m._default_tags
  ∧ (((timeit m ts cn qn nm t0 t1 body).2).selfAfter)._default_tags = m._default_tags
  ∧ ((service_check m ts name status msg tags).selfAfter)._default_tags
      = m._default_tags := by
  refine ⟨rfl, rfl, rfl, rfl, rfl, rfl, ?_, ?_, ?_⟩
  · cases body <;> rfl
  · cases body <;> rfl
  · cases status <;> rfl

/-- Claim C8: a callable wrapped by the timing decorator returns its
result unchanged and emits exactly one timing metric named by the
dot-join of the identity components collected from the callable; when
the callable raises, the exception propagates and nothing is emitted on
that path. -/
theorem claim_C8 {ε α : Type} (m : DataDogMetrics) (ts : Int)
    (cn qn nm : Option String) (t0 t1 : ℚ) (body : Body ε α) :
    (∀ a, body = Except.ok a →
        (timeit m ts cn qn nm t0 t1 body).1 = Except.ok a
      ∧ (timeit m ts cn qn nm t0 t1 body).2.out =
          (timing m ts (String.intercalate "." (timeitNames cn qn nm))
            (pyRound ((t1 - t0) * 1000)) none).out
      ∧ ((timeit m ts cn qn nm t0 t1 body).2.out).length = 1)
  ∧ (∀ e, body = Except.error e →
        (timeit m ts cn qn nm t0 t1 body).1 = Except.error e
      ∧ (timeit m ts cn qn nm t0 t1 body).2.out = []) := by
  constructor
  · intro a ha; subst ha; exact ⟨rfl, rfl, rfl⟩
  · intro e he; subst he; exact ⟨rfl, rfl⟩

/-- Claim C8, witness at a concrete input: a wrapped callable exposing
all three identity components that returns the number seven. -/
theorem claim_C8_witness :
    (timeit m0 0 (some "function") (some "Outer.f") (some "f") 0 1
        (Except.ok 7 : Body String Nat)).1 = Except.ok 7
  ∧ (timeit m0 0 (some "function") (some "Outer.f") (some "f") 0 1
        (Except.ok 7 : Body String Nat)).2.out =
      (timing m0 0 (String.intercalate "."
          (timeitNames (some "function") (some "Outer.f") (some "f")))
        (pyRound (((1 : ℚ) - 0) * 1000)) none).out :=
  ⟨((claim_C8 m0 0 (some "function") (some "Outer.f") (some "f") 0 1
      (Except.ok 7 : Body String Nat)).1 7 rfl).1,
   ((claim_C8 m0 0 (some "function") (some "Outer.f") (some "f") 0 1
      (Except.ok 7 : Body String Nat)).1 7 rfl).2.1⟩

/-- Claim C9: a service check with an integer status emits one line in
the same pipe grammar as the metric operations with the literal token
check in the metric-type position, the metric name built by prefixing
lambda. to the service name and collapsing doubled dots, the tags
resolved from the raw unprefixed service name, and the message suffix
appended exactly when the message is non-empty. -/
theorem claim_C9 (m : DataDogMetrics) (ts n : Int) (svc msg : String)
    (tags : Option (List String)) :
    service_check m ts svc (PyStatus.int n) msg tags =
      { raised := false
        out := [(if msg ≠ "" then
                   "MONITORING|" ++ toString ts ++ "|" ++ toString n ++ "|" ++ "check" ++ "|"
                     ++ pyCollapseDoubleDot ("lambda." ++ svc) ++ "|#"
                     ++ String.intercalate "," (get_tags m tags (some svc)).result
                     ++ "|m:" ++ msg
                 else
                   "MONITORING|" ++ toString ts ++ "|" ++ toString n ++ "|" ++ "check" ++ "|"
                     ++ pyCollapseDoubleDot ("lambda." ++ svc) ++ "|#"
                     ++ String.intercalate "," (get_tags m tags (some svc)).result) ++ "\n"]
        callerAfter := (get_tags m tags (some svc)).callerAfter
        selfAfter := m } :=
  rfl

/-- Claim C10: a call to any of the metric operations or to the service
check that passes a non-empty caller-supplied tags list extends that
list in place, so after the call the caller's list holds its original
elements followed by all default tags and, for a non-empty name, the
name-prefix tags; a caller passing no list or an empty list has no list
of theirs mutated. -/
theorem claim_C10 (m : DataDogMetrics) (ts : Int) (name msg : String) (v n : Int)
    (l : List String) (hl : l ≠ []) :
    ((increment m ts name v (some l)).callerAfter =
        some (l ++ m._default_tags ++ (if name ≠ "" then nameTags name else []))
      ∧ (gauge m ts name v (some l)).callerAfter =
          some (l ++ m._default_tags ++ (if name ≠ "" then nameTags name else []))
      ∧ (histogram m ts name v (some l)).callerAfter =
          some (l ++ m._default_tags ++ (if name ≠ "" then nameTags name else []))
      ∧ (timing m ts name v (some l)).callerAfter =
          some (l ++ m._default_tags ++ (if name ≠ "" then nameTags name else []))
      ∧ (service_check m ts name (PyStatus.int n) msg (some l)).callerAfter =
          some (l ++ m._default_tags ++ (if name ≠ "" then nameTags name else [])))
  ∧ ((increment m ts name v none).callerAfter = none
      ∧ (gauge m ts name v none).callerAfter = none
      ∧ (histogram m ts name v none).callerAfter = none
      ∧ (timing m ts name v none).callerAfter = none
      ∧ (service_check m ts name (PyStatus.int n) msg none).callerAfter = none)
  ∧ ((increment m ts name v (some [])).callerAfter = some []
      ∧ (gauge m ts name v (some [])).callerAfter = some []
      ∧ (histogram m ts name v (some [])).callerAfter = some []
      ∧ (timing m ts name v (some [])).callerAfter = some []
      ∧ (service_check m ts name (PyStatus.int n) msg (some [])).callerAfter = some []) := by
  refine ⟨⟨?_, ?_, ?_, ?_, ?_⟩,
          ⟨rfl, rfl, rfl, rfl, rfl⟩,
          ⟨rfl, rfl, rfl, rfl, rfl⟩⟩ <;>
    by_cases hn : name = "" <;>
      simp [increment, gauge, histogram, timing, timingTagsArg, service_check,
        get_tags, hl, hn]

/-- Claim C10, witness for the mutation branch at a concrete input: a
one-element caller list passed to increment with a two-segment name. -/
theorem claim_C10_witness :
    (increment m0 0 "a.b" 1 (some ["t"])).callerAfter =
      some (["t"] ++ m0._default_tags ++ (if "a.b" ≠ "" then nameTags "a.b" else [])) :=
  (claim_C10 m0 0 "a.b" "" 1 0 ["t"] (by decide)).1.1

end Doglessdata

